import Mathlib

/-!
# devp2p node lifecycle: bootnode parsing, NewDevP2P, Start, Stop

Shallow embedding of `hot-importer/devp2p/devp2p.go`.

The Go code is a sequence of calls into external collaborators (the logger,
the file system, the chain store, the chain engine, the protocol manager, the
p2p server).  Each such call is recorded as an `Event`; a run of a function is
the list of events it performs together with how it ends: it returns a value,
or the process is terminated by `os.Exit`.  What the collaborators answer is
taken from an `Env`.

Conventions.
* A Go `error` is `Option Error`, `none` being `nil`.
* A call `v, err := f(...)` whose `err` is checked before `v` is used is an
  `Except Error T`.  `discover.ParseNode` is the exception: the loop of
  `parseBootnodesFile` uses the node whatever `err` is, so both components are
  kept, the node being a pointer that may be `nil` (`Option Node`).
* `os.Exit` ends the process at once: nothing of the program runs after it
  (deferred calls included), so the trace up to `osExit` is the whole trace.
-/

namespace Devp2p

/-! ## Data model -/

/-- Go `error` values, by dynamic type: `*params.ConfigCompatError`, or any other type. -/
inductive Error where
  | ConfigCompatError (what : String)
  | errorString (text : String)
deriving DecidableEq, Repr

/-- The method `Error()` of an error value. -/
def Error.msg : Error → String
  | .ConfigCompatError what => what
  | .errorString text => text

/-- A parsed `discover.Node`. -/
structure Node where
  url : String
deriving DecidableEq, Repr

/-- An open `ethdb.Database`. -/
structure Database where
  path : String
deriving DecidableEq, Repr

/-- A `params.ChainConfig`. -/
structure ChainConfig where
  name : String
deriving DecidableEq, Repr

/-- A `core.BlockChain`. -/
structure BlockChain where
  id : Nat
deriving DecidableEq, Repr

/-- A `consensus.Engine`. -/
structure Engine where
  id : Nat
deriving DecidableEq, Repr

/-- A `core.TxPool`. -/
structure TxPool where
  id : Nat
deriving DecidableEq, Repr

/-- An `event.TypeMux`. -/
structure TypeMux where
  id : Nat
deriving DecidableEq, Repr

/-- A `p2p.Protocol` descriptor. -/
structure Protocol where
  name : String
deriving DecidableEq, Repr

/-- The protocol manager; `SubProtocols` is read by `NewDevP2P`. -/
structure ProtocolManager where
  SubProtocols : List Protocol
deriving DecidableEq, Repr

/-- The `p2p.Server`; `MaxPeers` is read by `Start`. -/
structure Server where
  MaxPeers : Int
  BootstrapNodes : List (Option Node)
  Protocols : List Protocol
deriving DecidableEq, Repr

/-- The `Config` struct. -/
structure Config where
  BootnodesPath : String
  bootnodes : Option (List (Option Node))
  NodeDatabasePath : String
  PrivateKeyFilePath : String
  Verbosity : Int
  Vmodule : String
deriving DecidableEq, Repr

/-- The `DevP2P` struct: the declared fields, and `chainConfig`, which the
constructor's literal sets.  `pm` and `protoManager` are pointers the
constructor leaves unset (`nil`). -/
structure DevP2P where
  server : Server
  pm : Option ProtocolManager
  chainDb : Database
  blockchain : BlockChain
  engine : Engine
  chainConfig : ChainConfig
  protoManager : Option ProtocolManager
deriving DecidableEq, Repr

/-- What a bootnode source yields once opened: the lines `scanner.Scan`
delivers, and what `scanner.Err()` reports after the last of them. -/
structure File where
  lines : List String
  scanErr : Option Error
deriving DecidableEq, Repr

/-- One call into a collaborator. -/
inductive Event where
  | setLogHandler (verbosity : Int) (vmodule : String)
  | logError (msg : String) (ctx : List (String × String))
  | logInfo (msg : String) (ctx : List (String × String))
  | logDebug (msg : String) (ctx : List (String × String))
  | osOpen (path : String)
  | fileClose (path : String)
  | osExit (code : Int)
  | newTypeMux
  | ethashNewFaker
  | OpenDatabase (path : String) (cache : Int) (handles : Option Int)
  | SetupGenesisBlock
  | NewBlockChain
  | NewTxPool
  | NewProtocolManager
  | newServer
  | serverStart
  | protoManagerStart (maxPeers : Int)
  | blockchainStop
  | protocolManagerStop
  | txPoolStop
  | eventMuxStop
  | chainDbClose
  | serverStop
deriving DecidableEq, Repr

/-- The answers of the collaborators. -/
structure Env where
  osOpen : String → Except Error File
  ParseNode : String → Option Node × Option Error
  NewLDBDatabase : String → Int → Option Int → Except Error Database
  NewFaker : Engine
  SetupGenesisBlock : Database → ChainConfig × String × Option Error
  NewBlockChain : Database → ChainConfig → Engine → Except Error BlockChain
  NewTxPool : ChainConfig → BlockChain → TxPool
  NewProtocolManager : ChainConfig → TypeMux → TxPool → Engine → BlockChain → Database →
    Except Error ProtocolManager
  newServer : Config → List Protocol → Server
  serverStart : Server → Option Error
  protoManagerStart : Option ProtocolManager → Int → Option Error

/-! ## Runs -/

/-- How a run ends: the function returns, or `os.Exit` terminates the process. -/
inductive Outcome (α : Type) where
  | ret (a : α)
  | exit (code : Int)
deriving DecidableEq, Repr

/-- A run: the events performed, in order, and the outcome. -/
structure Proc (α : Type) where
  trace : List Event
  out : Outcome α
deriving DecidableEq, Repr

/-- Return without any event. -/
def Proc.pure {α : Type} (a : α) : Proc α := ⟨[], .ret a⟩

/-- Sequencing: the continuation runs only if the first part returned. -/
def Proc.bind {α β : Type} (m : Proc α) (f : α → Proc β) : Proc β :=
  match m.out with
  | .ret a => ⟨m.trace ++ (f a).trace, (f a).out⟩
  | .exit code => ⟨m.trace, .exit code⟩

instance : Monad Proc where
  pure := Proc.pure
  bind := Proc.bind

/-- Perform one event. -/
def emit (e : Event) : Proc Unit := ⟨[e], .ret ()⟩

/-- The call `os.Exit(code)`. -/
def osExit {α : Type} (code : Int) : Proc α := ⟨[.osExit code], .exit code⟩

/-! ## The functions of devp2p.go -/

/-- The type assertion `_, ok := err.(*params.ConfigCompatError)`: the value of `ok`. -/
def isConfigCompatError : Option Error → Bool
  | some (.ConfigCompatError _) => true
  | _ => false

/-- The function `OpenDatabase`. -/
def OpenDatabase (env : Env) (path : String) (cache : Int) (handles : Option Int) :
    Proc (Except Error Database) := do
  emit (.OpenDatabase path cache handles)
  match env.NewLDBDatabase path cache handles with
  | .error err => pure (.error err)
  | .ok db => pure (.ok db)

/-- The function `setupLogger`. -/
def setupLogger (config : Config) : Proc Unit :=
  emit (.setLogHandler config.Verbosity config.Vmodule)

/-- The `for scanner.Scan()` loop of `parseBootnodesFile`, over the lines still
to be scanned, `nodes` being the slice built so far. -/
def scanLoop (env : Env) : List String → List (Option Node) → Proc (List (Option Node))
  | [], nodes => pure nodes
  | nodeUrl :: rest, nodes => do
    let (node, err) := env.ParseNode nodeUrl
    match err with
    | some e =>
      emit (.logError "add bootstrap node error" [("node-url", nodeUrl), ("error", e.msg)])
    | none => pure ()
    let nodes := nodes ++ [node]
    emit (.logDebug "added bootstrap node" [("node-url", nodeUrl)])
    scanLoop env rest nodes

/-- The function `parseBootnodesFile`.  The deferred `file.Close()` runs on
every return that follows a successful open. -/
def parseBootnodesFile (env : Env) (filePath : String) :
    Proc (Option (List (Option Node)) × Option Error) :=
  if filePath = "" then
    pure (none, some (.errorString "A bootnodes file must be defined!"))
  else do
    emit (.osOpen filePath)
    match env.osOpen filePath with
    | .error err => pure (none, some err)
    | .ok file => do
      let nodes ← scanLoop env file.lines []
      emit (.fileClose filePath)
      match file.scanErr with
      | some err => pure (none, some err)
      | none => pure (some nodes, none)

/-- The function `NewDevP2P`.  The arguments the source gives `core.NewTxPool`
(`config.TxPool`, `eth.chainConfig`, `eth.blockchain`) name nothing in scope;
the chain configuration and chain engine just built stand for them.
`newServer` is called by the source and defined elsewhere; it is taken from
the collaborators.  The final `return manager` is the success return. -/
def NewDevP2P (env : Env) (config : Config) : Proc (Option DevP2P × Option Error) := do
  setupLogger config
  let (bootnodes, err) ← parseBootnodesFile env config.BootnodesPath
  let config := { config with bootnodes := bootnodes }
  match err with
  | some e => do
    emit (.logError "NewManager" [("error", "processBootnodesFile error: " ++ e.msg)])
    osExit 1
  | none => pure ()
  if config.NodeDatabasePath = "" then do
    emit (.logError "NewManager"
      [("error", "node database path must be appointed outside this package")])
    osExit 1
  let path := "/home/jwasinger/db/data"
  emit .newTypeMux
  let eventMux : TypeMux := ⟨0⟩
  emit .ethashNewFaker
  let engine := env.NewFaker
  match ← OpenDatabase env path 128 none with
  | .error err => pure (none, some err)
  | .ok chainDb => do
    emit .SetupGenesisBlock
    let (chainConfig, _genesisHash, genesisErr) := env.SetupGenesisBlock chainDb
    let ok := isConfigCompatError genesisErr
    if genesisErr ≠ none ∧ ¬ ok then pure (none, genesisErr)
    else do
      emit (.logInfo "Initialised chain configuration" [("config", chainConfig.name)])
      emit .NewBlockChain
      match env.NewBlockChain chainDb chainConfig engine with
      | .error err => pure (none, some err)
      | .ok blockchain => do
        emit .NewTxPool
        let txPool := env.NewTxPool chainConfig blockchain
        emit .NewProtocolManager
        match env.NewProtocolManager chainConfig eventMux txPool engine blockchain chainDb with
        | .error err => pure (none, some err)
        | .ok protocolManager => do
          emit .newServer
          let server := env.newServer config protocolManager.SubProtocols
          let manager : DevP2P :=
            { blockchain := blockchain, engine := engine, chainDb := chainDb,
              chainConfig := chainConfig, server := server, pm := none, protoManager := none }
          pure (some manager, none)

/-- The method `Start`. -/
def DevP2P.Start (env : Env) (d : DevP2P) : Proc Unit := do
  let maxPeers := d.server.MaxPeers
  emit .serverStart
  match env.serverStart d.server with
  | some err => do
    emit (.logError "error starting devp2p server" [("error", err.msg)])
    osExit 1
  | none => pure ()
  emit (.protoManagerStart maxPeers)
  match env.protoManagerStart d.protoManager maxPeers with
  | some err => do
    emit (.logError "error starting ETH protocol manager" [("error", err.msg)])
    osExit 1
  | none => pure ()

/-- The method `Stop`.  Its first five calls go through a receiver the source
writes `s`, the sixth through `d`; all six are calls on the node's subsystems. -/
def DevP2P.Stop (_d : DevP2P) : Proc Unit := do
  emit .blockchainStop
  emit .protocolManagerStop
  emit .txPoolStop
  emit .eventMuxStop
  emit .chainDbClose
  emit .serverStop

/-! ## Vocabulary of the claims -/

/-- A line is accepted when `discover.ParseNode` returns no error for it. -/
def accepts (env : Env) (line : String) : Bool := (env.ParseNode line).2.isNone

/-- A line is rejected when `discover.ParseNode` returns an error for it. -/
def rejects (env : Env) (line : String) : Bool := (env.ParseNode line).2.isSome

/-- The endpoints the specification asks of a readable source: the parsed
nodes of the accepted lines, in their order. -/
def specEndpoints (env : Env) (lines : List String) : List (Option Node) :=
  (lines.filter (accepts env)).map (fun line => (env.ParseNode line).1)

/-- The warning record of `parseBootnodesFile`. -/
def Event.isWarning : Event → Bool
  | .logError msg _ => msg == "add bootstrap node error"
  | _ => false

/-- The success diagnostic of `parseBootnodesFile`. -/
def Event.isAdded : Event → Bool
  | .logDebug msg _ => msg == "added bootstrap node"
  | _ => false

/-- The chain-store open call. -/
def Event.isOpenDatabase : Event → Bool
  | .OpenDatabase _ _ _ => true
  | _ => false

/-- The call of the protocol handler's `Start`. -/
def Event.isProtoManagerStart : Event → Bool
  | .protoManagerStart _ => true
  | _ => false

/-- Calls that construct, open, start, stop or close a subsystem of the node
(event bus, consensus engine, chain store, genesis setup, chain engine,
transaction pool, protocol handler, server).  Logging, reading the bootnode
source and `os.Exit` are not among them. -/
def Event.touchesSubsystem : Event → Bool
  | .setLogHandler _ _ => false
  | .logError _ _ => false
  | .logInfo _ _ => false
  | .logDebug _ _ => false
  | .osOpen _ => false
  | .fileClose _ => false
  | .osExit _ => false
  | _ => true

/-- The six release calls of a shutdown, in the documented order. -/
def releaseSteps : List Event :=
  [.blockchainStop, .protocolManagerStop, .txPoolStop, .eventMuxStop, .chainDbClose, .serverStop]

/-- A release call: a `Stop` or `Close` on a subsystem. -/
def Event.isRelease (e : Event) : Bool := decide (e ∈ releaseSteps)

/-! ## Concrete collaborators used at the concrete inputs -/

/-- A complete node URL. -/
def nodeUrlA : String :=
  "enode://a979fb575495b8d6db44f750317d0f4622bf4c2aa3365d6af7c284339968eef2" ++
    "9b69ad0dce72a4d8db5ebb4968de0e3bec910127f134779fbcb0cb6d3331163c@52.16.188.185:30303"

/-- A second complete node URL. -/
def nodeUrlB : String :=
  "enode://3f1d12044546b76342d59d4a05532c14b85aa669704bfe1f864fe079415aa2c0" ++
    "2d743e03218e57a33fb94523adb54032871a6c51b2cc5514cb7c7e35b3ed0a99@13.93.211.84:30303"

/-- A truncated line: the node identifier is cut short. -/
def truncatedUrl : String := "enode://a979fb575495b8d6"

/-- A bootnode source of three lines, the second of which is truncated. -/
def sampleFile : File :=
  { lines := [nodeUrlA, truncatedUrl, nodeUrlB], scanErr := none }

/-- Collaborators that all succeed: `bootnodes.txt` holds `sampleFile`, and
`ParseNode` accepts the two complete node URLs and rejects everything else,
returning a `nil` node with the error. -/
def sampleEnv : Env where
  osOpen := fun p =>
    if p = "bootnodes.txt" then .ok sampleFile else .error (.errorString "no such file")
  ParseNode := fun s =>
    if s = nodeUrlA ∨ s = nodeUrlB then (some ⟨s⟩, none)
    else (none, some (.errorString "invalid node ID (wrong length, want 128 hex chars)"))
  NewLDBDatabase := fun p _ _ => .ok ⟨p⟩
  NewFaker := ⟨0⟩
  SetupGenesisBlock := fun _ => (⟨"mainnet"⟩, "0xd4e5", none)
  NewBlockChain := fun _ _ _ => .ok ⟨0⟩
  NewTxPool := fun _ _ => ⟨0⟩
  NewProtocolManager := fun _ _ _ _ _ _ => .ok ⟨[⟨"eth"⟩]⟩
  newServer := fun c ps => ⟨25, c.bootnodes.getD [], ps⟩
  serverStart := fun _ => none
  protoManagerStart := fun _ _ => none

/-- A configuration with both required paths set. -/
def sampleConfig : Config :=
  { BootnodesPath := "bootnodes.txt", bootnodes := none, NodeDatabasePath := "/var/lib/node/db",
    PrivateKeyFilePath := "", Verbosity := 3, Vmodule := "" }

/-- A built node. -/
def sampleNode : DevP2P :=
  { server := ⟨25, [], [⟨"eth"⟩]⟩, pm := none, chainDb := ⟨"/home/jwasinger/db/data"⟩,
    blockchain := ⟨0⟩, engine := ⟨0⟩, chainConfig := ⟨"mainnet"⟩, protoManager := none }

/-- Collaborators as in `sampleEnv`, but the server's `Start` fails to bind. -/
def bindErrorEnv : Env :=
  { sampleEnv with
    serverStart := fun _ => some (.errorString "listen tcp :30303: bind: address already in use") }

/-- Collaborators as in `sampleEnv`, but the protocol handler's `Start` fails. -/
def handlerErrorEnv : Env :=
  { sampleEnv with protoManagerStart := fun _ _ => some (.errorString "handler start failed") }

/-- Collaborators as in `sampleEnv`, but `NewProtocolManager` returns an error. -/
def pmErrorEnv : Env :=
  { sampleEnv with
    NewProtocolManager := fun _ _ _ _ _ _ => .error (.errorString "incompatible configuration") }

/-- Collaborators as in `sampleEnv`, but genesis setup reports a mismatch that
is not a `ConfigCompatError`. -/
def genesisErrorEnv : Env :=
  { sampleEnv with
    SetupGenesisBlock := fun _ =>
      (⟨"mainnet"⟩, "0xd4e5", some (.errorString "database already contains an incompatible genesis block")) }

/-- Two calls of `Stop` in succession on the same node. -/
def stopTwice (d : DevP2P) : Proc Unit := do
  d.Stop
  d.Stop

/-- A genesis error that is fatal in the words of the specification: a
non-nil error that is not a `*params.ConfigCompatError`. -/
def fatalGenesisError (genesisErr : Option Error) : Prop :=
  ∃ e, genesisErr = some e ∧ ∀ what, e ≠ .ConfigCompatError what

/-- The events the loop of `parseBootnodesFile` performs for one line. -/
def lineEvents (env : Env) (nodeUrl : String) : List Event :=
  (match (env.ParseNode nodeUrl).2 with
    | some e => [.logError "add bootstrap node error" [("node-url", nodeUrl), ("error", e.msg)]]
    | none => []) ++ [.logDebug "added bootstrap node" [("node-url", nodeUrl)]]

/-- The events the loop of `parseBootnodesFile` performs for a list of lines. -/
def scanTrace (env : Env) : List String → List Event
  | [] => []
  | nodeUrl :: rest => lineEvents env nodeUrl ++ scanTrace env rest

set_option maxRecDepth 8192

/-! ## Lemmas on runs -/

theorem bind_eq {α β : Type} (m : Proc α) (f : α → Proc β) : (m >>= f) = Proc.bind m f := rfl

theorem pure_eq {α : Type} (a : α) : (pure a : Proc α) = ⟨[], .ret a⟩ := rfl

theorem emit_bind {β : Type} (e : Event) (f : Unit → Proc β) :
    Proc.bind (emit e) f = ⟨e :: (f ()).trace, (f ()).out⟩ := rfl

theorem osExit_bind {α β : Type} (code : Int) (f : α → Proc β) :
    Proc.bind (osExit code) f = ⟨[.osExit code], .exit code⟩ := rfl

theorem ret_bind {α β : Type} (t : List Event) (a : α) (f : α → Proc β) :
    Proc.bind ⟨t, .ret a⟩ f = ⟨t ++ (f a).trace, (f a).out⟩ := rfl

/-- The loop always returns: one entry is appended per line, accepted or not. -/
theorem scanLoop_eq (env : Env) (lines : List String) (nodes : List (Option Node)) :
    scanLoop env lines nodes =
      ⟨scanTrace env lines, .ret (nodes ++ lines.map (fun l => (env.ParseNode l).1))⟩ := by
  induction lines generalizing nodes with
  | nil => simp [scanLoop, scanTrace, pure_eq]
  | cons l rest ih =>
    rcases h : env.ParseNode l with ⟨node, _ | e⟩ <;>
      simp [scanLoop, scanTrace, lineEvents, h, ih, bind_eq, emit_bind, pure_eq, ret_bind]

/-- On a source that opens, `parseBootnodesFile` is the loop between open and close. -/
theorem parseBootnodesFile_eq (env : Env) (filePath : String) (file : File)
    (hp : filePath ≠ "") (ho : env.osOpen filePath = .ok file) :
    parseBootnodesFile env filePath =
      ⟨.osOpen filePath :: (scanTrace env file.lines ++ [.fileClose filePath]),
        match file.scanErr with
        | some err => .ret (none, some err)
        | none => .ret (some (file.lines.map (fun l => (env.ParseNode l).1)), none)⟩ := by
  rcases hs : file.scanErr with _ | err <;>
    simp [parseBootnodesFile, hp, ho, hs, scanLoop_eq, bind_eq, emit_bind, pure_eq, ret_bind]

/-- The loop of `parseBootnodesFile` touches no subsystem of the node. -/
theorem scanTrace_quiet (env : Env) (lines : List String) :
    ∀ e ∈ scanTrace env lines, e.touchesSubsystem = false := by
  induction lines with
  | nil => simp [scanTrace]
  | cons l rest ih =>
    intro e he
    simp only [scanTrace, lineEvents, List.mem_append] at he
    rcases he with (he | he) | he
    · rcases h : (env.ParseNode l).2 with _ | x <;> rw [h] at he <;> simp at he
      subst he; rfl
    · simp at he; subst he; rfl
    · exact ih e he

/-- The function `parseBootnodesFile` always returns to its caller. -/
theorem parseBootnodesFile_ret (env : Env) (p : String) :
    ∃ r, (parseBootnodesFile env p).out = .ret r := by
  by_cases hp : p = ""
  · subst hp; exact ⟨_, rfl⟩
  · rcases ho : env.osOpen p with err | file
    · exact ⟨(none, some err), by
        simp [parseBootnodesFile, hp, ho, bind_eq, emit_bind, pure_eq]⟩
    · rw [parseBootnodesFile_eq env p file hp ho]
      rcases file.scanErr with _ | e <;> exact ⟨_, rfl⟩

/-- The function `parseBootnodesFile` touches no subsystem of the node. -/
theorem parseBootnodesFile_quiet (env : Env) (p : String) :
    ∀ e ∈ (parseBootnodesFile env p).trace, e.touchesSubsystem = false := by
  by_cases hp : p = ""
  · subst hp; intro e he; cases he
  · rcases ho : env.osOpen p with err | file
    · simp [parseBootnodesFile, hp, ho, bind_eq, emit_bind, pure_eq, Event.touchesSubsystem]
    · rw [parseBootnodesFile_eq env p file hp ho]
      intro e he
      simp only [List.mem_cons, List.mem_append, List.mem_singleton, List.not_mem_nil,
        or_false] at he
      rcases he with he | he | he
      · subst he; rfl
      · exact scanTrace_quiet env _ e he
      · subst he; rfl

/-- With an empty path `parseBootnodesFile` returns an error and performs no event. -/
theorem parseBootnodesFile_empty (env : Env) :
    parseBootnodesFile env "" =
      ⟨[], .ret (none, some (.errorString "A bootnodes file must be defined!"))⟩ := rfl

/-! ## The paths through NewDevP2P -/

/-- Path 1: the bootnode source cannot be parsed; the process exits. -/
theorem NewDevP2P_parse_error (env : Env) (config : Config)
    (bn : Option (List (Option Node))) (e : Error)
    (hp : (parseBootnodesFile env config.BootnodesPath).out = .ret (bn, some e)) :
    NewDevP2P env config =
      ⟨.setLogHandler config.Verbosity config.Vmodule ::
          ((parseBootnodesFile env config.BootnodesPath).trace ++
            [.logError "NewManager" [("error", "processBootnodesFile error: " ++ e.msg)],
              .osExit 1]),
        .exit 1⟩ := by
  unfold NewDevP2P
  generalize parseBootnodesFile env config.BootnodesPath = m at hp ⊢
  obtain ⟨t, o⟩ := m
  simp only at hp
  subst hp
  simp [OpenDatabase, setupLogger, bind_eq, emit_bind, ret_bind, osExit_bind, pure_eq]

/-- Path 2: the node database path is empty; the process exits. -/
theorem NewDevP2P_no_database_path (env : Env) (config : Config)
    (bn : Option (List (Option Node)))
    (hp : (parseBootnodesFile env config.BootnodesPath).out = .ret (bn, none))
    (hpath : config.NodeDatabasePath = "") :
    NewDevP2P env config =
      ⟨.setLogHandler config.Verbosity config.Vmodule ::
          ((parseBootnodesFile env config.BootnodesPath).trace ++
            [.logError "NewManager"
                [("error", "node database path must be appointed outside this package")],
              .osExit 1]),
        .exit 1⟩ := by
  unfold NewDevP2P
  generalize parseBootnodesFile env config.BootnodesPath = m at hp ⊢
  obtain ⟨t, o⟩ := m
  simp only at hp
  subst hp
  simp [OpenDatabase, setupLogger, bind_eq, emit_bind, ret_bind, osExit_bind, pure_eq, hpath]

/-- Path 3: the chain store cannot be opened. -/
theorem NewDevP2P_open_error (env : Env) (config : Config)
    (bn : Option (List (Option Node))) (err : Error)
    (hp : (parseBootnodesFile env config.BootnodesPath).out = .ret (bn, none))
    (hpath : config.NodeDatabasePath ≠ "")
    (hdb : env.NewLDBDatabase "/home/jwasinger/db/data" 128 none = .error err) :
    NewDevP2P env config =
      ⟨.setLogHandler config.Verbosity config.Vmodule ::
          ((parseBootnodesFile env config.BootnodesPath).trace ++
            [.newTypeMux, .ethashNewFaker, .OpenDatabase "/home/jwasinger/db/data" 128 none]),
        .ret (none, some err)⟩ := by
  unfold NewDevP2P
  generalize parseBootnodesFile env config.BootnodesPath = m at hp ⊢
  obtain ⟨t, o⟩ := m
  simp only at hp
  subst hp
  simp [OpenDatabase, setupLogger, bind_eq, emit_bind, ret_bind, osExit_bind, pure_eq, hpath, hdb]

/-- Path 4: genesis setup reports an error that is not a `ConfigCompatError`. -/
theorem NewDevP2P_genesis_fatal (env : Env) (config : Config)
    (bn : Option (List (Option Node))) (db : Database) (cc : ChainConfig) (gh : String)
    (gerr : Option Error)
    (hp : (parseBootnodesFile env config.BootnodesPath).out = .ret (bn, none))
    (hpath : config.NodeDatabasePath ≠ "")
    (hdb : env.NewLDBDatabase "/home/jwasinger/db/data" 128 none = .ok db)
    (hg : env.SetupGenesisBlock db = (cc, gh, gerr))
    (hf : gerr ≠ none ∧ isConfigCompatError gerr = false) :
    NewDevP2P env config =
      ⟨.setLogHandler config.Verbosity config.Vmodule ::
          ((parseBootnodesFile env config.BootnodesPath).trace ++
            [.newTypeMux, .ethashNewFaker, .OpenDatabase "/home/jwasinger/db/data" 128 none,
              .SetupGenesisBlock]),
        .ret (none, gerr)⟩ := by
  unfold NewDevP2P
  generalize parseBootnodesFile env config.BootnodesPath = m at hp ⊢
  obtain ⟨t, o⟩ := m
  simp only at hp
  subst hp
  simp [OpenDatabase, setupLogger, bind_eq, emit_bind, ret_bind, osExit_bind, pure_eq, hpath, hdb, hg, hf.1, hf.2]

/-- Path 5: the chain engine cannot be constructed. -/
theorem NewDevP2P_blockchain_error (env : Env) (config : Config)
    (bn : Option (List (Option Node))) (db : Database) (cc : ChainConfig) (gh : String)
    (gerr : Option Error) (err : Error)
    (hp : (parseBootnodesFile env config.BootnodesPath).out = .ret (bn, none))
    (hpath : config.NodeDatabasePath ≠ "")
    (hdb : env.NewLDBDatabase "/home/jwasinger/db/data" 128 none = .ok db)
    (hg : env.SetupGenesisBlock db = (cc, gh, gerr))
    (hnf : ¬ (gerr ≠ none ∧ isConfigCompatError gerr = false))
    (hbc : env.NewBlockChain db cc env.NewFaker = .error err) :
    NewDevP2P env config =
      ⟨.setLogHandler config.Verbosity config.Vmodule ::
          ((parseBootnodesFile env config.BootnodesPath).trace ++
            [.newTypeMux, .ethashNewFaker, .OpenDatabase "/home/jwasinger/db/data" 128 none,
              .SetupGenesisBlock,
              .logInfo "Initialised chain configuration" [("config", cc.name)],
              .NewBlockChain]),
        .ret (none, some err)⟩ := by
  unfold NewDevP2P
  generalize parseBootnodesFile env config.BootnodesPath = m at hp ⊢
  obtain ⟨t, o⟩ := m
  simp only at hp
  subst hp
  have hnf2 : ¬ (¬ gerr = none ∧ isConfigCompatError gerr = false) := hnf
  simp [OpenDatabase, setupLogger, bind_eq, emit_bind, ret_bind, osExit_bind, pure_eq, hpath, hdb, hg, hnf2, hbc]

/-- Path 6: the protocol manager cannot be constructed. -/
theorem NewDevP2P_protocol_manager_error (env : Env) (config : Config)
    (bn : Option (List (Option Node))) (db : Database) (cc : ChainConfig) (gh : String)
    (gerr : Option Error) (bc : BlockChain) (err : Error)
    (hp : (parseBootnodesFile env config.BootnodesPath).out = .ret (bn, none))
    (hpath : config.NodeDatabasePath ≠ "")
    (hdb : env.NewLDBDatabase "/home/jwasinger/db/data" 128 none = .ok db)
    (hg : env.SetupGenesisBlock db = (cc, gh, gerr))
    (hnf : ¬ (gerr ≠ none ∧ isConfigCompatError gerr = false))
    (hbc : env.NewBlockChain db cc env.NewFaker = .ok bc)
    (hpm : env.NewProtocolManager cc ⟨0⟩ (env.NewTxPool cc bc) env.NewFaker bc db = .error err) :
    NewDevP2P env config =
      ⟨.setLogHandler config.Verbosity config.Vmodule ::
          ((parseBootnodesFile env config.BootnodesPath).trace ++
            [.newTypeMux, .ethashNewFaker, .OpenDatabase "/home/jwasinger/db/data" 128 none,
              .SetupGenesisBlock,
              .logInfo "Initialised chain configuration" [("config", cc.name)],
              .NewBlockChain, .NewTxPool, .NewProtocolManager]),
        .ret (none, some err)⟩ := by
  unfold NewDevP2P
  generalize parseBootnodesFile env config.BootnodesPath = m at hp ⊢
  obtain ⟨t, o⟩ := m
  simp only at hp
  subst hp
  have hnf2 : ¬ (¬ gerr = none ∧ isConfigCompatError gerr = false) := hnf
  simp [OpenDatabase, setupLogger, bind_eq, emit_bind, ret_bind, osExit_bind, pure_eq, hpath, hdb, hg, hnf2, hbc, hpm]

/-- Path 7: every construction step succeeds. -/
theorem NewDevP2P_success (env : Env) (config : Config)
    (bn : Option (List (Option Node))) (db : Database) (cc : ChainConfig) (gh : String)
    (gerr : Option Error) (bc : BlockChain) (pm : ProtocolManager)
    (hp : (parseBootnodesFile env config.BootnodesPath).out = .ret (bn, none))
    (hpath : config.NodeDatabasePath ≠ "")
    (hdb : env.NewLDBDatabase "/home/jwasinger/db/data" 128 none = .ok db)
    (hg : env.SetupGenesisBlock db = (cc, gh, gerr))
    (hnf : ¬ (gerr ≠ none ∧ isConfigCompatError gerr = false))
    (hbc : env.NewBlockChain db cc env.NewFaker = .ok bc)
    (hpm : env.NewProtocolManager cc ⟨0⟩ (env.NewTxPool cc bc) env.NewFaker bc db = .ok pm) :
    NewDevP2P env config =
      ⟨.setLogHandler config.Verbosity config.Vmodule ::
          ((parseBootnodesFile env config.BootnodesPath).trace ++
            [.newTypeMux, .ethashNewFaker, .OpenDatabase "/home/jwasinger/db/data" 128 none,
              .SetupGenesisBlock,
              .logInfo "Initialised chain configuration" [("config", cc.name)],
              .NewBlockChain, .NewTxPool, .NewProtocolManager, .newServer]),
        .ret (some { blockchain := bc, engine := env.NewFaker, chainDb := db, chainConfig := cc,
                     server := env.newServer { config with bootnodes := bn } pm.SubProtocols,
                     pm := none, protoManager := none }, none)⟩ := by
  unfold NewDevP2P
  generalize parseBootnodesFile env config.BootnodesPath = m at hp ⊢
  obtain ⟨t, o⟩ := m
  simp only at hp
  subst hp
  have hnf2 : ¬ (¬ gerr = none ∧ isConfigCompatError gerr = false) := hnf
  simp [OpenDatabase, setupLogger, bind_eq, emit_bind, ret_bind, osExit_bind, pure_eq, hpath, hdb, hg, hnf2, hbc, hpm]

/-! ## The paths through Start -/

/-- The server's `Start` fails: the error is logged and the process exits. -/
theorem Start_server_error (env : Env) (d : DevP2P) (err : Error)
    (hs : env.serverStart d.server = some err) :
    d.Start env =
      ⟨[.serverStart, .logError "error starting devp2p server" [("error", err.msg)], .osExit 1],
        .exit 1⟩ := by
  simp [DevP2P.Start, hs, bind_eq, emit_bind, osExit_bind, pure_eq]

/-- The protocol handler's `Start` fails: the error is logged and the process exits. -/
theorem Start_handler_error (env : Env) (d : DevP2P) (err : Error)
    (hs : env.serverStart d.server = none)
    (hm : env.protoManagerStart d.protoManager d.server.MaxPeers = some err) :
    d.Start env =
      ⟨[.serverStart, .protoManagerStart d.server.MaxPeers,
          .logError "error starting ETH protocol manager" [("error", err.msg)], .osExit 1],
        .exit 1⟩ := by
  simp [DevP2P.Start, hs, hm, bind_eq, emit_bind, osExit_bind, pure_eq, ret_bind, osExit]

/-- Both `Start` calls succeed. -/
theorem Start_ok (env : Env) (d : DevP2P)
    (hs : env.serverStart d.server = none)
    (hm : env.protoManagerStart d.protoManager d.server.MaxPeers = none) :
    d.Start env = ⟨[.serverStart, .protoManagerStart d.server.MaxPeers], .ret ()⟩ := by
  simp [DevP2P.Start, hs, hm, bind_eq, emit_bind, pure_eq, ret_bind]

/-- The method `Stop` performs the six release calls and returns. -/
theorem Stop_eq (d : DevP2P) : d.Stop = ⟨releaseSteps, .ret ()⟩ := rfl

/-! ## Bootnode parsing: what the loop logs and returns -/

/-- The loop logs one warning per rejected line. -/
theorem scanTrace_warnings (env : Env) (lines : List String) :
    (scanTrace env lines).countP Event.isWarning = lines.countP (rejects env) := by
  induction lines with
  | nil => rfl
  | cons l rest ih =>
    rcases h : (env.ParseNode l).2 with _ | e <;>
      simp [scanTrace, lineEvents, h, ih, rejects, List.countP_cons, Event.isWarning,
        Event.isAdded]

/-- The loop logs one success diagnostic per line, accepted or rejected. -/
theorem scanTrace_added (env : Env) (lines : List String) :
    (scanTrace env lines).countP Event.isAdded = lines.length := by
  induction lines with
  | nil => rfl
  | cons l rest ih =>
    rcases h : (env.ParseNode l).2 with _ | e <;>
      simp [scanTrace, lineEvents, h, ih, List.countP_cons, Event.isWarning, Event.isAdded]

/-- On a readable source the result has one entry per line, accepted or rejected. -/
theorem parseBootnodesFile_one_entry_per_line (env : Env) (filePath : String) (file : File)
    (hp : filePath ≠ "") (ho : env.osOpen filePath = .ok file) (hs : file.scanErr = none) :
    (parseBootnodesFile env filePath).out =
      .ret (some (file.lines.map (fun l => (env.ParseNode l).1)), none) := by
  rw [parseBootnodesFile_eq env filePath file hp ho, hs]

/-! ## The claims -/

/-- C1 (the code breaks the claim).  The source `bootnodes.txt` of `sampleEnv`
has three lines: accepted, rejected, accepted (N = 2, M = 1).  The claim asks
for the two parsed nodes; `parseBootnodesFile` returns N + M = 3 entries, the
one of the rejected line being the nil node `ParseNode` returned with its
error. -/
theorem C1_rejected_line_is_appended :
    sampleEnv.osOpen "bootnodes.txt" = .ok sampleFile ∧
    (sampleFile.lines.filter (accepts sampleEnv)).length = 2 ∧
    (sampleFile.lines.filter (rejects sampleEnv)).length = 1 ∧
    specEndpoints sampleEnv sampleFile.lines =
      [some ⟨nodeUrlA⟩, some ⟨nodeUrlB⟩] ∧
    (parseBootnodesFile sampleEnv "bootnodes.txt").out =
      .ret (some [some ⟨nodeUrlA⟩, none, some ⟨nodeUrlB⟩],
        none) := by
  refine ⟨rfl, ?_, ?_, ?_, ?_⟩ <;> decide

/-- C2 (the code breaks the claim).  On the same source (N = 2 accepted lines,
M = 1 rejected line) the trace of `parseBootnodesFile` holds M = 1 warning, as
claimed, but N + M = 3 success diagnostics where the claim asks for N = 2:
the truncated line is also logged as added. -/
theorem C2_rejected_line_is_logged_as_added :
    (sampleFile.lines.filter (accepts sampleEnv)).length = 2 ∧
    (sampleFile.lines.filter (rejects sampleEnv)).length = 1 ∧
    (parseBootnodesFile sampleEnv "bootnodes.txt").trace.countP Event.isWarning = 1 ∧
    (parseBootnodesFile sampleEnv "bootnodes.txt").trace.countP Event.isAdded = 3 ∧
    Event.logDebug "added bootstrap node" [("node-url", truncatedUrl)] ∈
      (parseBootnodesFile sampleEnv "bootnodes.txt").trace := by
  decide

/-- C3.  When `BootnodesPath` or `NodeDatabasePath` is empty, `NewDevP2P` fails
(the process exits with status 1) and its trace holds no chain-store open and
no call that constructs or touches a subsystem; with an empty `BootnodesPath`,
`parseBootnodesFile` returns an error and performs no event, so opens no file. -/
theorem C3_missing_path_fails_before_any_subsystem (env : Env) (config : Config)
    (h : config.BootnodesPath = "" ∨ config.NodeDatabasePath = "") :
    (NewDevP2P env config).out = .exit 1 ∧
    (NewDevP2P env config).trace.countP Event.isOpenDatabase = 0 ∧
    (∀ e ∈ (NewDevP2P env config).trace, e.touchesSubsystem = false) ∧
    (config.BootnodesPath = "" →
      (parseBootnodesFile env config.BootnodesPath).trace = [] ∧
      ∃ err, (parseBootnodesFile env config.BootnodesPath).out = .ret (none, some err)) := by
  have hq := parseBootnodesFile_quiet env config.BootnodesPath
  have key : (NewDevP2P env config).out = .exit 1 ∧
      ∀ e ∈ (NewDevP2P env config).trace, e.touchesSubsystem = false := by
    obtain ⟨⟨bn, err⟩, hr⟩ := parseBootnodesFile_ret env config.BootnodesPath
    rcases err with _ | err
    · have hpath : config.NodeDatabasePath = "" := by
        rcases h with h | h
        · rw [h, parseBootnodesFile_empty] at hr
          simp at hr
        · exact h
      rw [NewDevP2P_no_database_path env config bn hr hpath]
      refine ⟨rfl, ?_⟩
      intro e he
      simp only [List.mem_cons, List.mem_append, List.not_mem_nil, or_false] at he
      rcases he with he | he | he | he
      · subst he; rfl
      · exact hq e he
      · subst he; rfl
      · subst he; rfl
    · rw [NewDevP2P_parse_error env config bn err hr]
      refine ⟨rfl, ?_⟩
      intro e he
      simp only [List.mem_cons, List.mem_append, List.not_mem_nil, or_false] at he
      rcases he with he | he | he | he
      · subst he; rfl
      · exact hq e he
      · subst he; rfl
      · subst he; rfl
  refine ⟨key.1, ?_, key.2, ?_⟩
  · rw [List.countP_eq_zero]
    intro e he
    have := key.2 e he
    cases e <;> simp_all [Event.touchesSubsystem, Event.isOpenDatabase]
  · intro hb
    rw [hb, parseBootnodesFile_empty]
    exact ⟨rfl, _, rfl⟩

/-- Witness of C3: a configuration whose `NodeDatabasePath` is empty. -/
theorem C3_witness :
    (NewDevP2P sampleEnv { sampleConfig with NodeDatabasePath := "" }).out = .exit 1 ∧
    (NewDevP2P sampleEnv { sampleConfig with NodeDatabasePath := "" }).trace.countP
      Event.isOpenDatabase = 0 :=
  ⟨(C3_missing_path_fails_before_any_subsystem sampleEnv
      { sampleConfig with NodeDatabasePath := "" } (Or.inr rfl)).1,
   (C3_missing_path_fails_before_any_subsystem sampleEnv
      { sampleConfig with NodeDatabasePath := "" } (Or.inr rfl)).2.1⟩

/-- C4.  In every run of `Start`, a call of the protocol handler's `Start`
carries the `MaxPeers` of the server, happens only when the server's `Start`
returned no error, and comes after the server's `Start` in the trace; when the
server's `Start` returns an error the handler's `Start` is not called (count
0); when it returns no error the handler's `Start` is called exactly once. -/
theorem C4_handler_started_after_server (env : Env) (d : DevP2P) :
    (∀ (i : Nat) (k : Int), (d.Start env).trace[i]? = some (Event.protoManagerStart k) →
      k = d.server.MaxPeers ∧ env.serverStart d.server = none ∧
      ∃ j, j < i ∧ (d.Start env).trace[j]? = some Event.serverStart) ∧
    (env.serverStart d.server ≠ none →
      (d.Start env).trace.countP Event.isProtoManagerStart = 0) ∧
    (env.serverStart d.server = none →
      (d.Start env).trace.countP Event.isProtoManagerStart = 1 ∧
      .protoManagerStart d.server.MaxPeers ∈ (d.Start env).trace) := by
  rcases hs : env.serverStart d.server with _ | e
  · have shape : ∃ tail, d.Start env =
          ⟨.serverStart :: .protoManagerStart d.server.MaxPeers :: tail,
            (d.Start env).out⟩ ∧ tail.countP Event.isProtoManagerStart = 0 ∧
          ∀ (i : Nat) (k : Int), tail[i]? ≠ some (Event.protoManagerStart k) := by
      rcases hm : env.protoManagerStart d.protoManager d.server.MaxPeers with _ | e
      · refine ⟨[], ?_, rfl, by simp⟩
        rw [Start_ok env d hs hm]
      · refine ⟨[.logError "error starting ETH protocol manager" [("error", e.msg)],
          .osExit 1], ?_, rfl, ?_⟩
        · rw [Start_handler_error env d e hs hm]
        · intro i k
          rcases i with _ | _ | i <;> simp
    obtain ⟨tail, heq, hcnt, hno⟩ := shape
    rw [heq]
    refine ⟨?_, ?_, ?_⟩
    · intro i k h
      rcases i with _ | _ | i
      · simp at h
      · simp at h
        exact ⟨h.symm, rfl, 0, by omega, by simp⟩
      · simp at h
        exact absurd h (hno i k)
    · intro h; exact absurd rfl h
    · intro _
      simp [List.countP_cons, hcnt, Event.isProtoManagerStart]
  · rw [Start_server_error env d e hs]
    refine ⟨?_, ?_, ?_⟩
    · intro i k h
      rcases i with _ | _ | _ | i <;> simp at h
    · intro _; rfl
    · intro h; cases h

/-- C5 as amended.  When the server's `Start` or the protocol handler's
`Start(maxPeers)` returns an error, `Start` logs the error and ends the process
with `os.Exit(1)`; no rollback takes place: the trace holds no `Stop` of the
server and no other release call. -/
theorem C5_failed_start_exits_without_rollback (env : Env) (d : DevP2P)
    (h : env.serverStart d.server ≠ none ∨
      env.protoManagerStart d.protoManager d.server.MaxPeers ≠ none) :
    (d.Start env).out = .exit 1 ∧
    (d.Start env).trace.getLast? = some (.osExit 1) ∧
    (∃ msg ctx, Event.logError msg ctx ∈ (d.Start env).trace) ∧
    Event.serverStop ∉ (d.Start env).trace ∧
    (∀ e ∈ (d.Start env).trace, e.isRelease = false) := by
  rcases hs : env.serverStart d.server with _ | e
  · rcases hm : env.protoManagerStart d.protoManager d.server.MaxPeers with _ | e
    · rcases h with h | h
      · exact absurd hs h
      · exact absurd hm h
    · rw [Start_handler_error env d e hs hm]
      refine ⟨rfl, rfl, ⟨"error starting ETH protocol manager", [("error", e.msg)], by simp⟩,
        by simp, ?_⟩
      intro x hx
      simp only [List.mem_cons, List.not_mem_nil, or_false] at hx
      rcases hx with hx | hx | hx | hx <;> subst hx <;> rfl
  · rw [Start_server_error env d e hs]
    refine ⟨rfl, rfl, ⟨"error starting devp2p server", [("error", e.msg)], by simp⟩,
      by simp, ?_⟩
    intro x hx
    simp only [List.mem_cons, List.not_mem_nil, or_false] at hx
    rcases hx with hx | hx | hx <;> subst hx <;> rfl

/-- Witness of C5 as amended: the server's `Start` fails to bind. -/
theorem C5_witness :
    (sampleNode.Start bindErrorEnv).out = .exit 1 ∧
    Event.serverStop ∉ (sampleNode.Start bindErrorEnv).trace :=
  ⟨(C5_failed_start_exits_without_rollback bindErrorEnv sampleNode
      (Or.inl (by decide))).1,
   (C5_failed_start_exits_without_rollback bindErrorEnv sampleNode
      (Or.inl (by decide))).2.2.2.1⟩

/-- C5 as stated fails.  With a server whose `Start` returns a bind error, and
with a protocol handler whose `Start` returns an error, `Start` fails (the
process exits with status 1) and the server's `Stop` was never invoked. -/
theorem C5_counterexample :
    (bindErrorEnv.serverStart sampleNode.server ≠ none ∧
      (sampleNode.Start bindErrorEnv).out = .exit 1 ∧
      Event.serverStop ∉ (sampleNode.Start bindErrorEnv).trace) ∧
    (handlerErrorEnv.serverStart sampleNode.server = none ∧
      handlerErrorEnv.protoManagerStart sampleNode.protoManager sampleNode.server.MaxPeers
        ≠ none ∧
      (sampleNode.Start handlerErrorEnv).out = .exit 1 ∧
      Event.serverStart ∈ (sampleNode.Start handlerErrorEnv).trace ∧
      Event.serverStop ∉ (sampleNode.Start handlerErrorEnv).trace) := by
  decide

/-- C6.  One call of `Stop` returns after exactly six release calls, each made
once, in the order blockchain, protocol handler, transaction pool, event bus,
chain store, server: the server is stopped last, and what precedes the close
of the chain store is the stop of the chain engine, protocol handler,
transaction pool and event bus. -/
theorem C6_stop_releases_in_order (d : DevP2P) :
    d.Stop.out = .ret () ∧
    d.Stop.trace =
      [.blockchainStop, .protocolManagerStop, .txPoolStop, .eventMuxStop, .chainDbClose,
        .serverStop] ∧
    d.Stop.trace.length = 6 ∧
    (∀ e, e.isRelease = true → d.Stop.trace.count e = 1) ∧
    d.Stop.trace.getLast? = some .serverStop ∧
    d.Stop.trace.takeWhile (fun e => decide (e ≠ .chainDbClose)) =
      [.blockchainStop, .protocolManagerStop, .txPoolStop, .eventMuxStop] := by
  rw [Stop_eq]
  refine ⟨rfl, rfl, rfl, ?_, rfl, by decide⟩
  intro e he
  have hmem : e ∈ releaseSteps := by simpa [Event.isRelease] using he
  simp only [releaseSteps, List.mem_cons, List.not_mem_nil, or_false] at hmem
  rcases hmem with h | h | h | h | h | h <;> subst h <;> decide

/-- C7 as amended.  `Stop` keeps no record of having run: a second call makes
the same six release calls again, so two calls in succession make twelve
release calls, each subsystem being released twice. -/
theorem C7_second_stop_releases_again (d : DevP2P) :
    (stopTwice d).trace = d.Stop.trace ++ d.Stop.trace ∧
    (stopTwice d).trace.length = 12 ∧
    (stopTwice d).trace.countP Event.isRelease = 12 ∧
    (∀ e, e.isRelease = true → (stopTwice d).trace.count e = 2) := by
  have h2 : stopTwice d = ⟨releaseSteps ++ releaseSteps, .ret ()⟩ := rfl
  rw [h2, Stop_eq]
  refine ⟨rfl, rfl, by decide, ?_⟩
  intro e he
  have hmem : e ∈ releaseSteps := by simpa [Event.isRelease] using he
  simp only [releaseSteps, List.mem_cons, List.not_mem_nil, or_false] at hmem
  rcases hmem with h | h | h | h | h | h <;> subst h <;> decide

/-- C7 as stated fails.  On a built node, two calls of `Stop` in succession do
not yield the release calls of one call: the second call makes six release
calls of its own. -/
theorem C7_counterexample :
    (stopTwice sampleNode).trace ≠ sampleNode.Stop.trace ∧
    (stopTwice sampleNode).trace = sampleNode.Stop.trace ++ sampleNode.Stop.trace ∧
    sampleNode.Stop.trace.countP Event.isRelease = 6 := by
  decide

/-- The source's test `genesisErr != nil && !ok` holds exactly of the fatal
genesis errors of the specification. -/
theorem fatalGenesisError_iff (gerr : Option Error) :
    (gerr ≠ none ∧ isConfigCompatError gerr = false) ↔ fatalGenesisError gerr := by
  unfold fatalGenesisError
  rcases gerr with _ | (w | t)
  · simp
  · simp [isConfigCompatError]
  · simp [isConfigCompatError]

/-- No event of `parseBootnodesFile` opens the chain store. -/
theorem parseBootnodesFile_opens_no_store (env : Env) (p : String) :
    (parseBootnodesFile env p).trace.countP Event.isOpenDatabase = 0 := by
  rw [List.countP_eq_zero]
  intro e he
  have := parseBootnodesFile_quiet env p e he
  cases e <;> simp_all [Event.touchesSubsystem, Event.isOpenDatabase]

/-- No event of `parseBootnodesFile` is a release call. -/
theorem parseBootnodesFile_no_release (env : Env) (p : String) :
    ∀ e ∈ (parseBootnodesFile env p).trace, e.isRelease = false := by
  intro e he
  have := parseBootnodesFile_quiet env p e he
  cases e <;> simp_all [Event.touchesSubsystem, Event.isRelease, releaseSteps]

/-- Once the chain store is open, `NewDevP2P` returns to its caller, with an
error or with a node, after genesis setup and a tail of events none of which
opens or releases anything. -/
theorem NewDevP2P_after_open (env : Env) (config : Config)
    (bn : Option (List (Option Node))) (db : Database)
    (hp : (parseBootnodesFile env config.BootnodesPath).out = .ret (bn, none))
    (hpath : config.NodeDatabasePath ≠ "")
    (hdb : env.NewLDBDatabase "/home/jwasinger/db/data" 128 none = .ok db) :
    ∃ tail r, NewDevP2P env config =
        ⟨.setLogHandler config.Verbosity config.Vmodule ::
            ((parseBootnodesFile env config.BootnodesPath).trace ++
              (.newTypeMux :: .ethashNewFaker ::
                .OpenDatabase "/home/jwasinger/db/data" 128 none :: .SetupGenesisBlock :: tail)),
          .ret r⟩ ∧
      (∀ e ∈ tail, e.isOpenDatabase = false ∧ e.isRelease = false) ∧
      ((∃ err, r = (none, some err)) ∨ ∃ d, r = (some d, none)) := by
  rcases hg : env.SetupGenesisBlock db with ⟨cc, gh, gerr⟩
  by_cases hf : gerr ≠ none ∧ isConfigCompatError gerr = false
  · refine ⟨[], _, NewDevP2P_genesis_fatal env config bn db cc gh gerr hp hpath hdb hg hf,
      by simp, Or.inl ?_⟩
    rcases gerr with _ | e
    · exact absurd rfl hf.1
    · exact ⟨e, rfl⟩
  · rcases hbc : env.NewBlockChain db cc env.NewFaker with err | bc
    · refine ⟨_, _,
        NewDevP2P_blockchain_error env config bn db cc gh gerr err hp hpath hdb hg hf hbc,
        ?_, Or.inl ⟨err, rfl⟩⟩
      intro e he
      simp only [List.mem_cons, List.not_mem_nil, or_false] at he
      rcases he with he | he <;> subst he <;>
          exact ⟨rfl, by simp [Event.isRelease, releaseSteps]⟩
    · rcases hpm : env.NewProtocolManager cc ⟨0⟩ (env.NewTxPool cc bc) env.NewFaker bc db
        with err | pm
      · refine ⟨_, _,
          NewDevP2P_protocol_manager_error env config bn db cc gh gerr bc err hp hpath hdb hg
            hf hbc hpm,
          ?_, Or.inl ⟨err, rfl⟩⟩
        intro e he
        simp only [List.mem_cons, List.not_mem_nil, or_false] at he
        rcases he with he | he | he | he <;> subst he <;>
          exact ⟨rfl, by simp [Event.isRelease, releaseSteps]⟩
      · refine ⟨_, _,
          NewDevP2P_success env config bn db cc gh gerr bc pm hp hpath hdb hg hf hbc hpm,
          ?_, Or.inr ⟨_, rfl⟩⟩
        intro e he
        simp only [List.mem_cons, List.not_mem_nil, or_false] at he
        rcases he with he | he | he | he | he <;> subst he <;>
          exact ⟨rfl, by simp [Event.isRelease, releaseSteps]⟩

/-- Whenever `NewDevP2P` reaches the chain-store open step, the one store it
opens is at the literal path of the source, whatever the configuration says. -/
theorem NewDevP2P_opens_literal_path (env : Env) (config : Config)
    (bn : Option (List (Option Node)))
    (hp : (parseBootnodesFile env config.BootnodesPath).out = .ret (bn, none))
    (hpath : config.NodeDatabasePath ≠ "") :
    (NewDevP2P env config).trace.filter Event.isOpenDatabase =
      [.OpenDatabase "/home/jwasinger/db/data" 128 none] := by
  have h0 : (parseBootnodesFile env config.BootnodesPath).trace.filter Event.isOpenDatabase
      = [] := by
    rw [List.filter_eq_nil_iff]
    intro e he
    have := parseBootnodesFile_quiet env config.BootnodesPath e he
    cases e <;> simp_all [Event.touchesSubsystem, Event.isOpenDatabase]
  rcases hdb : env.NewLDBDatabase "/home/jwasinger/db/data" 128 none with err | db
  · rw [NewDevP2P_open_error env config bn err hp hpath hdb]
    simp [List.filter_cons, h0, Event.isOpenDatabase]
  · obtain ⟨tail, r, heq, htail, _⟩ := NewDevP2P_after_open env config bn db hp hpath hdb
    have h1 : tail.filter Event.isOpenDatabase = [] := by
      rw [List.filter_eq_nil_iff]
      intro e he
      simp [(htail e he).1]
    rw [heq]
    simp [List.filter_cons, h0, h1, Event.isOpenDatabase]

/-- C8 as amended.  When `NewDevP2P` has opened the chain store and does not
produce a node, it returns an error to its caller and makes no release call:
the store it opened (one open call) is not closed. -/
theorem C8_failed_build_leaves_store_open (env : Env) (config : Config)
    (bn : Option (List (Option Node))) (db : Database)
    (hp : (parseBootnodesFile env config.BootnodesPath).out = .ret (bn, none))
    (hpath : config.NodeDatabasePath ≠ "")
    (hdb : env.NewLDBDatabase "/home/jwasinger/db/data" 128 none = .ok db)
    (hfail : ∀ d, (NewDevP2P env config).out ≠ .ret (some d, none)) :
    (∃ err, (NewDevP2P env config).out = .ret (none, some err)) ∧
    (NewDevP2P env config).trace.countP Event.isOpenDatabase = 1 ∧
    Event.chainDbClose ∉ (NewDevP2P env config).trace ∧
    (∀ e ∈ (NewDevP2P env config).trace, e.isRelease = false) := by
  obtain ⟨tail, r, heq, htail, hr⟩ := NewDevP2P_after_open env config bn db hp hpath hdb
  have hrel : ∀ e ∈ (NewDevP2P env config).trace, e.isRelease = false := by
    rw [heq]
    intro e he
    simp only [List.mem_cons, List.mem_append] at he
    rcases he with he | he | he | he | he | he | he
    · subst he; rfl
    · exact parseBootnodesFile_no_release env _ e he
    · subst he; rfl
    · subst he; rfl
    · subst he; rfl
    · subst he; rfl
    · exact (htail e he).2
  refine ⟨?_, ?_, ?_, hrel⟩
  · rcases hr with ⟨err, hr⟩ | ⟨d, hr⟩
    · exact ⟨err, by rw [heq, hr]⟩
    · exact absurd (by rw [heq, hr]) (hfail d)
  · have h1 : tail.countP Event.isOpenDatabase = 0 := by
      rw [List.countP_eq_zero]
      intro e he
      simp [(htail e he).1]
    rw [heq]
    simp [List.countP_cons, List.countP_append, parseBootnodesFile_opens_no_store, h1,
      Event.isOpenDatabase]
  · intro hmem
    have := hrel _ hmem
    revert this
    decide

/-- Witness of C8 as amended: the protocol manager cannot be constructed. -/
theorem C8_witness :
    (∃ err, (NewDevP2P pmErrorEnv sampleConfig).out = .ret (none, some err)) ∧
    (NewDevP2P pmErrorEnv sampleConfig).trace.countP Event.isOpenDatabase = 1 ∧
    Event.chainDbClose ∉ (NewDevP2P pmErrorEnv sampleConfig).trace :=
  have h := C8_failed_build_leaves_store_open pmErrorEnv sampleConfig
    (some [some ⟨nodeUrlA⟩, none, some ⟨nodeUrlB⟩])
    ⟨"/home/jwasinger/db/data"⟩ (by decide) (by decide) rfl
    (fun d hd => by
      have hout : (NewDevP2P pmErrorEnv sampleConfig).out =
          .ret (none, some (.errorString "incompatible configuration")) := by decide
      rw [hout] at hd
      cases hd)
  ⟨h.1, h.2.1, h.2.2.1⟩

/-- C8 as stated fails.  With a protocol manager that cannot be constructed,
`NewDevP2P` opens the chain store (the open succeeds), returns the error of
`NewProtocolManager`, and has made no `Close` on the chain store. -/
theorem C8_counterexample :
    Event.OpenDatabase "/home/jwasinger/db/data" 128 none ∈
      (NewDevP2P pmErrorEnv sampleConfig).trace ∧
    Event.NewProtocolManager ∈ (NewDevP2P pmErrorEnv sampleConfig).trace ∧
    (NewDevP2P pmErrorEnv sampleConfig).out =
      .ret (none, some (.errorString "incompatible configuration")) ∧
    Event.chainDbClose ∉ (NewDevP2P pmErrorEnv sampleConfig).trace := by
  decide

/-- C9.  Once `NewDevP2P` has reached genesis setup, the construction stops
short of the chain-engine step exactly when the genesis error is fatal (non-nil
and not a `ConfigCompatError`); a fatal genesis error is what `NewDevP2P`
returns, and with a nil error or a `ConfigCompatError` the chain-engine step is
reached. -/
theorem C9_genesis_error_gate (env : Env) (config : Config)
    (bn : Option (List (Option Node))) (db : Database) (cc : ChainConfig) (gh : String)
    (gerr : Option Error)
    (hp : (parseBootnodesFile env config.BootnodesPath).out = .ret (bn, none))
    (hpath : config.NodeDatabasePath ≠ "")
    (hdb : env.NewLDBDatabase "/home/jwasinger/db/data" 128 none = .ok db)
    (hg : env.SetupGenesisBlock db = (cc, gh, gerr)) :
    (Event.NewBlockChain ∉ (NewDevP2P env config).trace ↔ fatalGenesisError gerr) ∧
    (fatalGenesisError gerr → (NewDevP2P env config).out = .ret (none, gerr)) ∧
    ((gerr = none ∨ ∃ what, gerr = some (.ConfigCompatError what)) →
      Event.NewBlockChain ∈ (NewDevP2P env config).trace) := by
  have hq : Event.NewBlockChain ∉ (parseBootnodesFile env config.BootnodesPath).trace := by
    intro hmem
    have := parseBootnodesFile_quiet env _ _ hmem
    revert this
    decide
  have key : (Event.NewBlockChain ∉ (NewDevP2P env config).trace ↔ fatalGenesisError gerr) ∧
      (fatalGenesisError gerr → (NewDevP2P env config).out = .ret (none, gerr)) := by
    by_cases hf : gerr ≠ none ∧ isConfigCompatError gerr = false
    · have hfs := (fatalGenesisError_iff gerr).1 hf
      rw [NewDevP2P_genesis_fatal env config bn db cc gh gerr hp hpath hdb hg hf]
      refine ⟨⟨fun _ => hfs, fun _ => ?_⟩, fun _ => rfl⟩
      simp [hq]
    · have hfs : ¬ fatalGenesisError gerr := fun h => hf ((fatalGenesisError_iff gerr).2 h)
      refine ⟨⟨fun hno => ?_, fun h => absurd h hfs⟩, fun h => absurd h hfs⟩
      exfalso
      apply hno
      rcases hbc : env.NewBlockChain db cc env.NewFaker with err | bc
      · rw [NewDevP2P_blockchain_error env config bn db cc gh gerr err hp hpath hdb hg hf hbc]
        simp
      · rcases hpm : env.NewProtocolManager cc ⟨0⟩ (env.NewTxPool cc bc) env.NewFaker bc db
          with err | pm
        · rw [NewDevP2P_protocol_manager_error env config bn db cc gh gerr bc err hp hpath hdb
            hg hf hbc hpm]
          simp
        · rw [NewDevP2P_success env config bn db cc gh gerr bc pm hp hpath hdb hg hf hbc hpm]
          simp
  refine ⟨key.1, key.2, ?_⟩
  intro hok
  by_contra hno
  obtain ⟨e, he, hne⟩ := key.1.1 hno
  rcases hok with hok | ⟨what, hok⟩
  · rw [hok] at he; cases he
  · rw [hok] at he
    injection he with he
    exact hne what he.symm

/-- Witness of C9: with a nil genesis error the chain-engine step is reached;
with a genesis error that is not a `ConfigCompatError` it is not, and the error
is returned. -/
theorem C9_witness :
    Event.NewBlockChain ∈ (NewDevP2P sampleEnv sampleConfig).trace ∧
    (Event.NewBlockChain ∉ (NewDevP2P genesisErrorEnv sampleConfig).trace ↔
      fatalGenesisError
        (some (.errorString "database already contains an incompatible genesis block"))) :=
  ⟨(C9_genesis_error_gate sampleEnv sampleConfig
      (some [some ⟨nodeUrlA⟩, none, some ⟨nodeUrlB⟩])
      ⟨"/home/jwasinger/db/data"⟩ ⟨"mainnet"⟩ "0xd4e5" none
      (by decide) (by decide) rfl rfl).2.2 (Or.inl rfl),
   (C9_genesis_error_gate genesisErrorEnv sampleConfig
      (some [some ⟨nodeUrlA⟩, none, some ⟨nodeUrlB⟩])
      ⟨"/home/jwasinger/db/data"⟩ ⟨"mainnet"⟩ "0xd4e5"
      (some (.errorString "database already contains an incompatible genesis block"))
      (by decide) (by decide) rfl rfl).1⟩

/-- C10 (the code breaks the claim).  With `NodeDatabasePath` set to
`/var/lib/node/db`, `NewDevP2P` succeeds and the one chain store it opens is at
the literal path `/home/jwasinger/db/data` of the source, not at the configured
path. -/
theorem C10_store_opened_at_literal_path :
    sampleConfig.NodeDatabasePath = "/var/lib/node/db" ∧
    (NewDevP2P sampleEnv sampleConfig).trace.filter Event.isOpenDatabase =
      [.OpenDatabase "/home/jwasinger/db/data" 128 none] ∧
    Event.OpenDatabase sampleConfig.NodeDatabasePath 128 none ∉
      (NewDevP2P sampleEnv sampleConfig).trace ∧
    (∃ d, (NewDevP2P sampleEnv sampleConfig).out = .ret (some d, none) ∧
      d.chainDb = ⟨"/home/jwasinger/db/data"⟩) := by
  refine ⟨rfl, by decide, by decide, _, rfl, rfl⟩

end Devp2p
